import Mathlib

/-!
Verification of `CodeExecutorAgent`
(`src/python/packages/autogen-agentchat/src/autogen_agentchat/agents/_code_executor_agent.py`).

The agent is a stateless adapter: it extracts markdown code blocks from the
`TextMessage` entries of an incoming message sequence and, when at least one
block is found, hands the combined list to an injected executor, wrapping the
executor's output into a reply `TextMessage`; otherwise it returns a fixed
"no code blocks" reply.

The shallow embedding keeps the two external collaborators abstract, exactly
as the source consumes them:
* the extraction function `extract_markdown_code_blocks` (imported from
  `autogen_core.components.code_executor`, not part of the analysed file) is a
  parameter `extract : String → List CodeBlock`;
* the executor (`self._code_executor.execute_code_blocks`) is a field of the
  agent of type `List CodeBlock → κ → Except ε ExecutionResult`, where the
  cancellation token type `κ` is opaque and `Except` models the fact that the
  awaited call may raise (`ε`) instead of returning a result.

`on_messages` additionally returns the list of executor invocations it
performed (each recorded as the pair of arguments passed), so that
"invoked exactly once" / "never invoked" are stated as facts about that
trace.  The Python coroutine either returns a `Response` or propagates the
executor's exception, which the embedding renders as
`Except ε Response × List (List CodeBlock × κ)`.
-/

/-- Modelled from the spec: an extracted unit of code with its fence tag
(`language`, e.g. "python" or "sh") and body (`code`).  Mirrors
`autogen_core.components.code_executor.CodeBlock`, which is outside the
analysed file. -/
structure CodeBlock where
  language : String
  code : String
deriving DecidableEq, Repr

/-- Modelled from the spec: the executor's result, with an exit/success
indicator and the combined textual `output`.  Mirrors the `CodeResult` /
`ExecutionResult` contract consumed through
`self._code_executor.execute_code_blocks`; only `output` is read by the
agent. -/
structure ExecutionResult where
  exit_code : Int
  output : String
deriving DecidableEq, Repr

/-- Modelled from the spec: a text chat message with `content` and the
`source` identifier of its sender.  Mirrors
`autogen_agentchat.messages.TextMessage`, which is outside the analysed
file. -/
structure TextMessage where
  content : String
  source : String
deriving DecidableEq, Repr

/-- Modelled from the spec: the polymorphic `ChatMessage` variant type of
`autogen_agentchat.messages`.  Only the `textMessage` variant is inspected by
the agent; the other variants stand for the non-text message kinds that the
extraction loop skips. -/
inductive ChatMessage where
  | textMessage (message : TextMessage)
  | stopMessage (content : String) (source : String)
  | handoffMessage (content : String) (target : String) (source : String)
deriving DecidableEq, Repr

/-- Modelled from the spec: tags for the message classes an agent declares in
`produced_message_types` (the Python value is a list of classes such as
`[TextMessage]`). -/
inductive MessageType where
  | textMessage
  | stopMessage
  | handoffMessage
deriving DecidableEq, Repr

/-- Modelled from the spec: the agent's reply envelope
(`autogen_agentchat.base.Response`), carrying exactly one chat message; the
agent always puts a `TextMessage` there. -/
structure Response where
  chat_message : TextMessage
deriving DecidableEq, Repr

/-- The state of a `CodeExecutorAgent`: the fields set by `__init__`
(`name` and `description` stored by `BaseChatAgent.__init__`, and
`self._code_executor`).  `κ` is the opaque cancellation-token type and `ε`
the type of errors the executor's awaited call may raise. -/
structure CodeExecutorAgent (κ ε : Type) where
  name : String
  description : String
  code_executor : List CodeBlock → κ → Except ε ExecutionResult

/-- The default value of the `description` keyword argument of
`CodeExecutorAgent.__init__`, verbatim from the source. -/
def default_description : String :=
  "A computer terminal that performs no other action than running Python scripts (provided to it quoted in ```python code blocks), or sh shell scripts (provided to it quoted in ```sh code blocks)."

/-- `CodeExecutorAgent.__init__`: requires `name` and `code_executor`;
`description` is keyword-only and optional (`none` means omitted), defaulting
to `default_description`.  The body only stores the three values. -/
def CodeExecutorAgent.init {κ ε : Type} (name : String)
    (code_executor : List CodeBlock → κ → Except ε ExecutionResult)
    (description : Option String) : CodeExecutorAgent κ ε :=
  ⟨name, description.getD default_description, code_executor⟩

/-- `CodeExecutorAgent.produced_message_types`: the property returns the
constant list `[TextMessage]`. -/
def CodeExecutorAgent.produced_message_types {κ ε : Type}
    (agent : CodeExecutorAgent κ ε) : List MessageType :=
  [MessageType.textMessage]

/-- The extraction loop of `on_messages`:
`for msg in messages: if isinstance(msg, TextMessage): code_blocks.extend(extract_markdown_code_blocks(msg.content))`.
Non-`TextMessage` entries contribute nothing; blocks are appended in message
order, each message's blocks in the order `extract` returns them. -/
def extract_all (extract : String → List CodeBlock) :
    List ChatMessage → List CodeBlock
  | [] => []
  | ChatMessage.textMessage m :: rest => extract m.content ++ extract_all extract rest
  | ChatMessage.stopMessage _ _ :: rest => extract_all extract rest
  | ChatMessage.handoffMessage _ _ _ :: rest => extract_all extract rest

/-- `CodeExecutorAgent.on_messages`.  `extract` stands for the imported
`extract_markdown_code_blocks`.  Returns the agent's outcome (a `Response`,
or the executor's error propagated unchanged) together with the trace of
executor invocations, each recorded as the argument pair
`(code_blocks, cancellation_token)` that was passed.  The source executes:
extract all blocks; if the list is non-empty, call the executor once with the
full list and the token and wrap `result.output`; otherwise return the fixed
"No code blocks found in the thread." reply without calling the executor. -/
def CodeExecutorAgent.on_messages {κ ε : Type} (agent : CodeExecutorAgent κ ε)
    (extract : String → List CodeBlock)
    (messages : List ChatMessage) (cancellation_token : κ) :
    Except ε Response × List (List CodeBlock × κ) :=
  let code_blocks : List CodeBlock := extract_all extract messages
  if code_blocks.isEmpty then
    (Except.ok ⟨⟨"No code blocks found in the thread.", agent.name⟩⟩, [])
  else
    match agent.code_executor code_blocks cancellation_token with
    | Except.ok result =>
        (Except.ok ⟨⟨result.output, agent.name⟩⟩, [(code_blocks, cancellation_token)])
    | Except.error e =>
        (Except.error e, [(code_blocks, cancellation_token)])

/-- `CodeExecutorAgent.on_reset`: the body is `pass`, so the agent state is
returned unchanged and no error can be raised (the embedding is a total
function into the pair of the unchanged state and the `None` return value). -/
def CodeExecutorAgent.on_reset {κ ε : Type} (agent : CodeExecutorAgent κ ε)
    (cancellation_token : κ) : CodeExecutorAgent κ ε × Unit :=
  (agent, ())

/-- The predicate `isinstance(msg, TextMessage)` used by the extraction
loop. -/
def is_text_message : ChatMessage → Bool
  | ChatMessage.textMessage _ => true
  | ChatMessage.stopMessage _ _ => false
  | ChatMessage.handoffMessage _ _ _ => false

theorem extract_all_filter_text (extract : String → List CodeBlock)
    (messages : List ChatMessage) :
    extract_all extract (messages.filter is_text_message) =
      extract_all extract messages := by
  induction messages with
  | nil => rfl
  | cons msg rest ih =>
    cases msg with
    | textMessage m => simp [List.filter, is_text_message, extract_all, ih]
    | stopMessage c s => simp [List.filter, is_text_message, extract_all, ih]
    | handoffMessage c t s => simp [List.filter, is_text_message, extract_all, ih]

/-! Concrete instances used by the witnesses.  The cancellation-token type is
instantiated with `Nat` and the executor-error type with `String`. -/

/-- A witness executor that always succeeds with a failing exit code, to show
the output is returned regardless of success/failure status. -/
def wexec : List CodeBlock → Nat → Except String ExecutionResult :=
  fun _ _ => Except.ok ⟨1, "Traceback"⟩

/-- A witness executor that always raises. -/
def wexec_err : List CodeBlock → Nat → Except String ExecutionResult :=
  fun _ _ => Except.error "cancelled"

/-- A witness extraction function: the content "A" holds two fenced blocks,
"B" holds one, anything else none. -/
def wextract : String → List CodeBlock :=
  fun s =>
    if s = "A" then [⟨"python", "x = 1"⟩, ⟨"python", "print(x)"⟩]
    else if s = "B" then [⟨"sh", "echo hi"⟩]
    else []

/-- C1: if at least one code block is extracted from the input messages and
the executor returns a result, `on_messages` invokes the executor exactly
once, with the full combined block list and the cancellation token, and
returns a `Response` wrapping a `TextMessage` whose content is exactly the
result's `output` (whatever its exit code) and whose source is the agent's
name. -/
theorem C1_exec_once_wraps_output {κ ε : Type} (agent : CodeExecutorAgent κ ε)
    (extract : String → List CodeBlock) (messages : List ChatMessage)
    (tok : κ) (r : ExecutionResult)
    (hne : extract_all extract messages ≠ [])
    (hex : agent.code_executor (extract_all extract messages) tok = Except.ok r) :
    agent.on_messages extract messages tok =
      (Except.ok ⟨⟨r.output, agent.name⟩⟩,
        [(extract_all extract messages, tok)]) := by
  simp [CodeExecutorAgent.on_messages, List.isEmpty_iff, hne, hex]

theorem C1_witness :
    (extract_all wextract [ChatMessage.textMessage ⟨"B", "user"⟩] ≠ [] ∧
      (CodeExecutorAgent.init "coder" wexec none).code_executor
          (extract_all wextract [ChatMessage.textMessage ⟨"B", "user"⟩]) 7 =
        Except.ok ⟨1, "Traceback"⟩) ∧
    (CodeExecutorAgent.init "coder" wexec none).on_messages wextract
        [ChatMessage.textMessage ⟨"B", "user"⟩] 7 =
      (Except.ok ⟨⟨"Traceback", "coder"⟩⟩, [([⟨"sh", "echo hi"⟩], 7)]) :=
  ⟨⟨by decide, rfl⟩,
    C1_exec_once_wraps_output (CodeExecutorAgent.init "coder" wexec none)
      wextract [ChatMessage.textMessage ⟨"B", "user"⟩] 7 ⟨1, "Traceback"⟩
      (by decide) rfl⟩

/-- C2: the combined block list passed to the executor preserves message
order first and in-message block order second: when message `mA` yields
`[a1, a2]` and the later message `mB` yields `[b1]`, the executor receives
exactly `[a1, a2, b1]` (whatever the executor then does). -/
theorem C2_order_preserved {κ ε : Type} (agent : CodeExecutorAgent κ ε)
    (extract : String → List CodeBlock) (mA mB : TextMessage)
    (a1 a2 b1 : CodeBlock) (tok : κ)
    (hA : extract mA.content = [a1, a2]) (hB : extract mB.content = [b1]) :
    (agent.on_messages extract
        [ChatMessage.textMessage mA, ChatMessage.textMessage mB] tok).2 =
      [([a1, a2, b1], tok)] := by
  have hall : extract_all extract
      [ChatMessage.textMessage mA, ChatMessage.textMessage mB] =
      [a1, a2, b1] := by
    simp [extract_all, hA, hB]
  unfold CodeExecutorAgent.on_messages
  rw [hall]
  cases h : agent.code_executor [a1, a2, b1] tok <;> simp [h]

theorem C2_witness :
    (wextract "A" = [⟨"python", "x = 1"⟩, ⟨"python", "print(x)"⟩] ∧
      wextract "B" = [⟨"sh", "echo hi"⟩]) ∧
    ((CodeExecutorAgent.init "coder" wexec none).on_messages wextract
        [ChatMessage.textMessage ⟨"A", "u1"⟩, ChatMessage.textMessage ⟨"B", "u2"⟩]
        3).2 =
      [([⟨"python", "x = 1"⟩, ⟨"python", "print(x)"⟩, ⟨"sh", "echo hi"⟩], 3)] :=
  ⟨⟨by decide, by decide⟩,
    C2_order_preserved (CodeExecutorAgent.init "coder" wexec none) wextract
      ⟨"A", "u1"⟩ ⟨"B", "u2"⟩ ⟨"python", "x = 1"⟩ ⟨"python", "print(x)"⟩
      ⟨"sh", "echo hi"⟩ 3 (by decide) (by decide)⟩

/-- C3: when zero code blocks are extracted from the input messages,
`on_messages` returns a `Response` wrapping a `TextMessage` with the fixed
content "No code blocks found in the thread." and the agent's name as source,
and the executor-invocation trace is empty. -/
theorem C3_no_blocks_fixed_reply {κ ε : Type} (agent : CodeExecutorAgent κ ε)
    (extract : String → List CodeBlock) (messages : List ChatMessage) (tok : κ)
    (h : extract_all extract messages = []) :
    agent.on_messages extract messages tok =
      (Except.ok ⟨⟨"No code blocks found in the thread.", agent.name⟩⟩, []) := by
  simp [CodeExecutorAgent.on_messages, h]

theorem C3_witness :
    extract_all wextract
        [ChatMessage.stopMessage "stop" "u",
          ChatMessage.textMessage ⟨"no code here", "u"⟩] = [] ∧
    (CodeExecutorAgent.init "coder" wexec none).on_messages wextract
        [ChatMessage.stopMessage "stop" "u",
          ChatMessage.textMessage ⟨"no code here", "u"⟩] 0 =
      (Except.ok ⟨⟨"No code blocks found in the thread.", "coder"⟩⟩, []) :=
  ⟨by decide,
    C3_no_blocks_fixed_reply (CodeExecutorAgent.init "coder" wexec none)
      wextract
      [ChatMessage.stopMessage "stop" "u",
        ChatMessage.textMessage ⟨"no code here", "u"⟩] 0 (by decide)⟩

/-- C4: when blocks were extracted and the executor's invocation fails (or is
cancelled), the error propagates unchanged to the caller of `on_messages`:
the outcome is exactly that error — no alternate reply — and the executor
was invoked just the once. -/
theorem C4_error_propagates {κ ε : Type} (agent : CodeExecutorAgent κ ε)
    (extract : String → List CodeBlock) (messages : List ChatMessage)
    (tok : κ) (e : ε)
    (hne : extract_all extract messages ≠ [])
    (hex : agent.code_executor (extract_all extract messages) tok =
      Except.error e) :
    agent.on_messages extract messages tok =
      (Except.error e, [(extract_all extract messages, tok)]) := by
  simp [CodeExecutorAgent.on_messages, List.isEmpty_iff, hne, hex]

theorem C4_witness :
    (extract_all wextract [ChatMessage.textMessage ⟨"B", "user"⟩] ≠ [] ∧
      (CodeExecutorAgent.init "coder" wexec_err none).code_executor
          (extract_all wextract [ChatMessage.textMessage ⟨"B", "user"⟩]) 9 =
        Except.error "cancelled") ∧
    (CodeExecutorAgent.init "coder" wexec_err none).on_messages wextract
        [ChatMessage.textMessage ⟨"B", "user"⟩] 9 =
      (Except.error "cancelled", [([⟨"sh", "echo hi"⟩], 9)]) :=
  ⟨⟨by decide, rfl⟩,
    C4_error_propagates (CodeExecutorAgent.init "coder" wexec_err none)
      wextract [ChatMessage.textMessage ⟨"B", "user"⟩] 9 "cancelled"
      (by decide) rfl⟩

/-- C5: non-`TextMessage` entries are ignored by extraction and never cause a
failure: `on_messages` on any sequence equals `on_messages` on the
subsequence of its `TextMessage` entries. -/
theorem C5_non_text_ignored {κ ε : Type} (agent : CodeExecutorAgent κ ε)
    (extract : String → List CodeBlock) (messages : List ChatMessage)
    (tok : κ) :
    agent.on_messages extract messages tok =
      agent.on_messages extract (messages.filter is_text_message) tok := by
  unfold CodeExecutorAgent.on_messages
  rw [extract_all_filter_text]

/-- C6: `on_reset` never raises (it is a total function in the embedding)
for any cancellation handle, leaves the agent state unchanged, and a
subsequent `on_messages` call with identical arguments returns the same
result as without the intervening `on_reset`. -/
theorem C6_reset_noop {κ ε : Type} (agent : CodeExecutorAgent κ ε)
    (reset_tok : κ) (extract : String → List CodeBlock)
    (messages : List ChatMessage) (tok : κ) :
    agent.on_reset reset_tok = (agent, ()) ∧
    (agent.on_reset reset_tok).1.on_messages extract messages tok =
      agent.on_messages extract messages tok :=
  ⟨rfl, rfl⟩

/-- C7: `produced_message_types` returns the single-element list
`[TextMessage]` for every agent — whatever constructor arguments built it —
and still does so after an `on_reset`. -/
theorem C7_produced_message_types {κ ε : Type} (name : String)
    (code_executor : List CodeBlock → κ → Except ε ExecutionResult)
    (description : Option String) (reset_tok : κ) :
    (CodeExecutorAgent.init name code_executor
        description).produced_message_types = [MessageType.textMessage] ∧
    ((CodeExecutorAgent.init name code_executor description).on_reset
        reset_tok).1.produced_message_types = [MessageType.textMessage] :=
  ⟨rfl, rfl⟩

/-- C8: `on_messages` is fully determined by its arguments and the injected
collaborators: two agents with the same name and the same executor (their
descriptions may differ) return equal results on equal message sequences and
tokens — there is no state shared between invocations. -/
theorem C8_deterministic {κ ε : Type} (a1 a2 : CodeExecutorAgent κ ε)
    (extract : String → List CodeBlock) (messages : List ChatMessage)
    (tok : κ)
    (hname : a1.name = a2.name) (hexec : a1.code_executor = a2.code_executor) :
    a1.on_messages extract messages tok = a2.on_messages extract messages tok := by
  unfold CodeExecutorAgent.on_messages
  rw [hname, hexec]

theorem C8_witness :
    ((CodeExecutorAgent.init "coder" wexec none).name =
        (CodeExecutorAgent.init "coder" wexec (some "other text")).name ∧
      (CodeExecutorAgent.init "coder" wexec none).code_executor =
        (CodeExecutorAgent.init "coder" wexec (some "other text")).code_executor) ∧
    (CodeExecutorAgent.init "coder" wexec none).on_messages wextract
        [ChatMessage.textMessage ⟨"A", "u"⟩] 5 =
      (CodeExecutorAgent.init "coder" wexec (some "other text")).on_messages
        wextract [ChatMessage.textMessage ⟨"A", "u"⟩] 5 :=
  ⟨⟨rfl, rfl⟩,
    C8_deterministic (CodeExecutorAgent.init "coder" wexec none)
      (CodeExecutorAgent.init "coder" wexec (some "other text")) wextract
      [ChatMessage.textMessage ⟨"A", "u"⟩] 5 rfl rfl⟩

/-- C9: construction takes the required `name` and executor and an optional
description: when the description is omitted it is the fixed default string
describing the "python" / "sh" capability, when supplied it is stored as
given; the other two fields are stored unchanged, and construction is a
total function (no I/O, no failure). -/
theorem C9_init_defaults {κ ε : Type} (name : String)
    (code_executor : List CodeBlock → κ → Except ε ExecutionResult)
    (d : String) :
    CodeExecutorAgent.init name code_executor none =
      ⟨name,
        "A computer terminal that performs no other action than running Python scripts (provided to it quoted in ```python code blocks), or sh shell scripts (provided to it quoted in ```sh code blocks).",
        code_executor⟩ ∧
    CodeExecutorAgent.init name code_executor (some d) =
      ⟨name, d, code_executor⟩ :=
  ⟨rfl, rfl⟩

/-- C10: when zero code blocks are extracted, `on_messages` never consults or
forwards the cancellation handle: for any two handles it returns the same
fixed "No code blocks found in the thread." `Response` (with the agent's
name as source) and an empty executor-invocation trace, never a cancellation
failure. -/
theorem C10_token_not_consulted {κ ε : Type} (agent : CodeExecutorAgent κ ε)
    (extract : String → List CodeBlock) (messages : List ChatMessage)
    (tok1 tok2 : κ)
    (h : extract_all extract messages = []) :
    agent.on_messages extract messages tok1 =
      agent.on_messages extract messages tok2 ∧
    agent.on_messages extract messages tok1 =
      (Except.ok ⟨⟨"No code blocks found in the thread.", agent.name⟩⟩, []) := by
  unfold CodeExecutorAgent.on_messages
  simp [h]

theorem C10_witness :
    extract_all wextract [ChatMessage.textMessage ⟨"plain text", "u"⟩] = [] ∧
    (CodeExecutorAgent.init "coder" wexec_err none).on_messages wextract
        [ChatMessage.textMessage ⟨"plain text", "u"⟩] 0 =
      (CodeExecutorAgent.init "coder" wexec_err none).on_messages wextract
        [ChatMessage.textMessage ⟨"plain text", "u"⟩] 42 ∧
    (CodeExecutorAgent.init "coder" wexec_err none).on_messages wextract
        [ChatMessage.textMessage ⟨"plain text", "u"⟩] 0 =
      (Except.ok ⟨⟨"No code blocks found in the thread.", "coder"⟩⟩, []) :=
  ⟨by decide,
    C10_token_not_consulted (CodeExecutorAgent.init "coder" wexec_err none)
      wextract [ChatMessage.textMessage ⟨"plain text", "u"⟩] 0 42 (by decide)⟩
